import Mathlib

/-!
Verification of the trait-based response engine of the Amplarii
communications back-end (`src/api/index.js`, lines 385-490: the function
`generateAIResponse` with its helpers `getTraitDescription`,
`getStrengthsResponse`, `getImprovementResponse`, `getTeamResponse`,
`getAdaptationResponse`, and the `/api/chat` handler that wraps the
generated text into a `{response, context}` pair).

The JavaScript string primitives on the execution path are modelled as
follows:

* `String.prototype.includes(pat)` is raw substring containment
  (`jsIncludes`);
* `String.prototype.toLowerCase()` is the per-character simple case
  mapping; every trigger keyword is basic-latin, so the ASCII mapping
  `Char.toLower` (identical to the JS mapping on the basic-latin range)
  applied characterwise models it (`jsToLower`);
* a template-literal interpolation of a possibly-absent field renders
  the JS value `undefined` as the text "undefined" (`interp`);
* `x || d` on a string-or-undefined `x` picks `d` exactly when `x` is
  falsy, i.e. `undefined` or the empty string (`jsOr`);
* reading `obj[k]` from an object built from an object literal: a later
  duplicate key overwrites an earlier one, so the effective lookup is
  first-match over the reversed key/value list; an absent key
  (`undefined`) is coerced to the property name "undefined" (`jsIndex`).

All of these are total, so the embedded engine is total by construction,
mirroring the absence of any throwing operation in the source once the
profile has been parsed.
-/

namespace Amplarii

/-- Containment of `pat` as a contiguous run inside a character list. -/
def hasInfix (pat : List Char) : List Char → Bool
  | [] => pat.isEmpty
  | c :: rest => pat.isPrefixOf (c :: rest) || hasInfix pat rest

/-- JS substring containment, modelling `lowerMessage.includes(pat)`. -/
def jsIncludes (s pat : String) : Bool :=
  hasInfix pat.data s.data

/-- JS lower-casing, modelling `message.toLowerCase()` characterwise on
the basic-latin range (all trigger keywords are basic-latin). -/
def jsToLower (s : String) : String :=
  ⟨s.data.map Char.toLower⟩

/-- JS template-literal rendering of a string-or-undefined value:
`undefined` prints as the text "undefined". -/
def interp : Option String → String
  | some s => s
  | none => "undefined"

/-- JS `x || d` for a string-or-undefined `x`: the default is taken when
`x` is falsy, i.e. `undefined` or the empty string. -/
def jsOr : Option String → String → String
  | none, d => d
  | some s, d => if s = "" then d else s

/-- JS property read `obj[k]` where `obj` is built from an object
literal with the listed key order: a later duplicate key overwrites an
earlier one, hence first-match over the reversed list; an absent key is
coerced to the property name "undefined". -/
def jsIndex (tbl : List (String × String)) (k : Option String) : Option String :=
  tbl.reverse.lookup (k.getD "undefined")

/-- The `JSON.parse(assessment.dominant_traits)` object: one
possibly-absent string per assessment dimension. -/
structure Traits where
  drive : Option String
  expression : Option String
  adaptive : Option String
  intelligence : Option String
deriving Repr, DecidableEq

/-- The slice of an `assessments` row that `generateAIResponse` reads:
the signature label and the parsed dominant traits. -/
structure Assessment where
  signature : String
  traits : Traits
deriving Repr, DecidableEq

/-- The `descriptions` object literal of `getTraitDescription`, in source
order; the key "analytical" is declared twice. -/
def descriptions : List (String × String) :=
  [("action", "prefer taking immediate action and seeing quick results"),
   ("research", "like to understand details thoroughly before proceeding"),
   ("collaborate", "focus on building consensus and team alignment"),
   ("optimize", "emphasize efficiency and systematic approaches"),
   ("expressive", "communicate openly and energetically"),
   ("reflective", "think before speaking and prefer structured communication"),
   ("interactive", "love conversational exchanges and building on ideas"),
   ("purposeful", "communicate with clear intent and focus"),
   ("flexible", "adapt quickly and embrace change as opportunity"),
   ("analytical", "analyze implications before adapting"),
   ("collaborative", "consider human impact when adapting"),
   ("steady", "balance change with maintaining stability"),
   ("intuitive", "trust instincts and see big-picture patterns"),
   ("analytical", "rely on data and systematic reasoning"),
   ("social", "value input from others and multiple perspectives"),
   ("experiential", "draw on past experiences and proven approaches")]

/-- `getTraitDescription(trait)`: `descriptions[trait] || "have a unique
approach"`. -/
def getTraitDescription (trait : Option String) : String :=
  jsOr (jsIndex descriptions trait) "have a unique approach"

/-- The `strengths` object literal of `getStrengthsResponse`. -/
def strengths : List (String × String) :=
  [("action", "You excel at making quick decisions and driving results"),
   ("research", "You bring thoroughness and deep analysis to projects"),
   ("collaborate", "You build strong team consensus and alignment"),
   ("optimize", "You create efficient systems and processes"),
   ("expressive", "You energize others with your open communication"),
   ("reflective", "You provide thoughtful, well-considered input"),
   ("interactive", "You facilitate great conversations and idea-building"),
   ("purposeful", "You communicate with clarity and impact")]

/-- `getStrengthsResponse(traits)`. -/
def getStrengthsResponse (traits : Traits) : String :=
  "Your key strengths include: " ++
    jsOr (jsIndex strengths traits.drive) "Unique problem-solving approaches" ++
  ", " ++
    jsOr (jsIndex strengths traits.expression) "distinctive communication style" ++
  ", and your ability to " ++
    (if traits.adaptive = some "flexible" then "adapt quickly to change"
     else if traits.adaptive = some "steady" then "provide stability during change"
     else "navigate change thoughtfully") ++
  "."

/-- The `improvements` object literal of `getImprovementResponse`. -/
def improvements : List (String × String) :=
  [("action", "Consider slowing down occasionally to gather more input from others"),
   ("research", "Try setting time limits for analysis to avoid over-researching"),
   ("collaborate", "Sometimes make decisions efficiently even without full consensus"),
   ("optimize", "Be open to creative solutions that might not follow standard processes"),
   ("expressive", "Practice listening more and giving others space to contribute"),
   ("reflective", "Share your thoughts more frequently, even if they\x27re not fully formed"),
   ("interactive", "Sometimes focus on delivering clear conclusions rather than just exploring ideas"),
   ("purposeful", "Add more warmth and relationship-building to your communications")]

/-- `getImprovementResponse(traits)`. -/
def getImprovementResponse (traits : Traits) : String :=
  "To grow your communication effectiveness: " ++
    jsOr (jsIndex improvements traits.drive) "Continue developing your unique approach" ++
  " and " ++
    jsOr (jsIndex improvements traits.expression) "keep refining your communication style" ++
  ". Remember, these are suggestions to add to your strengths, not replace them."

/-- `getTeamResponse(traits)`: interpolates the raw `drive` and
`expression` values and branches on them with nested ternaries. -/
def getTeamResponse (traits : Traits) : String :=
  "When working with teams, leverage your " ++ interp traits.drive ++ " approach by " ++
    (if traits.drive = some "action" then "helping the team move forward decisively"
     else if traits.drive = some "research" then "ensuring decisions are well-informed"
     else if traits.drive = some "collaborate" then "building strong team unity"
     else "keeping the team organized and efficient") ++
  ". Your " ++ interp traits.expression ++ " communication style helps by " ++
    (if traits.expression = some "expressive" then "bringing energy and openness"
     else if traits.expression = some "reflective" then "providing thoughtful perspectives"
     else if traits.expression = some "interactive" then "facilitating great discussions"
     else "keeping communications clear and focused") ++
  "."

/-- `getAdaptationResponse(traits)`: interpolates the raw `adaptive`
value and branches on it with a nested ternary. -/
def getAdaptationResponse (traits : Traits) : String :=
  "To adapt your style with different people: With action-oriented colleagues, be direct and focus on results. With research-oriented people, provide data and allow time for analysis. With collaborative types, involve them in decisions. With process-oriented individuals, follow structure and be systematic. Your natural " ++
    interp traits.adaptive ++ " approach to change will help you " ++
    (if traits.adaptive = some "flexible" then "adjust quickly"
     else if traits.adaptive = some "steady" then "maintain stability while adapting"
     else "make thoughtful adjustments") ++
  "."

/-- The signature-query template of `generateAIResponse` (line 394). -/
def signatureText (a : Assessment) : String :=
  "Based on your assessment, you are a " ++ a.signature ++
  ". This means you naturally " ++ getTraitDescription a.traits.drive ++
  " in your approach to work, " ++ getTraitDescription a.traits.expression ++
  " in how you communicate, " ++ getTraitDescription a.traits.adaptive ++
  " when facing change, and " ++ getTraitDescription a.traits.intelligence ++
  " in how you process information."

/-- The tail of `generateAIResponse` (lines 414-429): the greeting, help
and fallback responses, each with a profile-present and a
profile-absent variant chosen by `assessment ? ... : ...`. -/
def generalTail (lowerMessage : String) (assessment : Option Assessment) : String :=
  if jsIncludes lowerMessage "hello" || jsIncludes lowerMessage "hi" then
    match assessment with
    | some _ => "Hi! I\x27m here to help you understand and apply your communication signature. Feel free to ask me about your results, how to work with different types of people, or how to leverage your strengths."
    | none => "Hello! I can help you understand communication styles and frameworks. To give you personalized advice, you\x27ll need to complete the assessment first."
  else if jsIncludes lowerMessage "help" then
    match assessment with
    | some _ => "I can help you with:\n• Understanding your communication signature\n• Working with different personality types\n• Leveraging your strengths\n• Adapting your style for better results\n\nWhat would you like to explore?"
    | none => "I can help you understand communication styles and take the assessment. Complete your profile and assessment first for personalized insights."
  else
    match assessment with
    | some a =>
        "That\x27s a great question about communication! Based on your " ++ a.signature ++
        " profile, I\x27d suggest considering your natural " ++ interp a.traits.drive ++
        " drive and " ++ interp a.traits.expression ++
        " communication style. Could you be more specific about what you\x27d like to know?"
    | none => "I\x27d love to help you with communication strategies! For personalized advice based on your unique style, please complete the assessment first."

/-- `generateAIResponse(message, userContext, assessment)`: lower-cases
the message, then walks the assessment-gated trigger chain and falls
through to the general tail. The `userContext` argument of the source
never influences the returned string and is omitted. -/
def generateAIResponse (message : String) (assessment : Option Assessment) : String :=
  let lowerMessage := jsToLower message
  match assessment with
  | some a =>
    if jsIncludes lowerMessage "signature" || jsIncludes lowerMessage "what am i" then
      signatureText a
    else if jsIncludes lowerMessage "strength" || jsIncludes lowerMessage "good at" then
      getStrengthsResponse a.traits
    else if jsIncludes lowerMessage "improve" || jsIncludes lowerMessage "better" then
      getImprovementResponse a.traits
    else if jsIncludes lowerMessage "team" || jsIncludes lowerMessage "colleague" then
      getTeamResponse a.traits
    else if jsIncludes lowerMessage "adapt" || jsIncludes lowerMessage "different" then
      getAdaptationResponse a.traits
    else
      generalTail lowerMessage (some a)
  | none => generalTail lowerMessage none

/-- The pair the `/api/chat` handler returns (lines 373-377). -/
structure ChatResult where
  response : String
  context : String
deriving Repr, DecidableEq

/-- The response-engine slice of the `/api/chat` handler (lines 371-377):
the generated text plus the context tag chosen solely by profile
presence. -/
def respond (message : String) (assessment : Option Assessment) : ChatResult :=
  { response := generateAIResponse message assessment
    context := match assessment with
      | some _ => "assessment_available"
      | none => "no_assessment" }

/-- The intent categories of the classifier, in priority order. -/
inductive Category where
  | signatureQuery
  | strengthsQuery
  | improvementQuery
  | teamQuery
  | adaptationQuery
  | greeting
  | help
  | fallback
deriving Repr, DecidableEq

/-- The category chosen by the trigger chain of lines 414-429 (the part
of `generateAIResponse` that runs whether or not a profile exists). -/
def classifyGeneral (lowerMessage : String) : Category :=
  if jsIncludes lowerMessage "hello" || jsIncludes lowerMessage "hi" then .greeting
  else if jsIncludes lowerMessage "help" then .help
  else .fallback

/-- The category `generateAIResponse` dispatches on: the same trigger
tests, in the same order, as the source if-chain (lines 386-429), with
the five profile-specific tests gated on profile presence. -/
def classify (message : String) (hasProfile : Bool) : Category :=
  let lowerMessage := jsToLower message
  if hasProfile then
    if jsIncludes lowerMessage "signature" || jsIncludes lowerMessage "what am i" then
      .signatureQuery
    else if jsIncludes lowerMessage "strength" || jsIncludes lowerMessage "good at" then
      .strengthsQuery
    else if jsIncludes lowerMessage "improve" || jsIncludes lowerMessage "better" then
      .improvementQuery
    else if jsIncludes lowerMessage "team" || jsIncludes lowerMessage "colleague" then
      .teamQuery
    else if jsIncludes lowerMessage "adapt" || jsIncludes lowerMessage "different" then
      .adaptationQuery
    else classifyGeneral lowerMessage
  else classifyGeneral lowerMessage

/-- Modelled from the spec (section 4.1): the classifier as an explicit
ordered list of (category, trigger set) pairs, the profile-gated pairs
first. Used only to compare the source if-chain against the spec
formulation. -/
def profileTriggers : List (Category × List String) :=
  [(.signatureQuery, ["signature", "what am i"]),
   (.strengthsQuery, ["strength", "good at"]),
   (.improvementQuery, ["improve", "better"]),
   (.teamQuery, ["team", "colleague"]),
   (.adaptationQuery, ["adapt", "different"])]

/-- Modelled from the spec (section 4.1): the profile-independent
trigger pairs. -/
def generalTriggers : List (Category × List String) :=
  [(.greeting, ["hello", "hi"]),
   (.help, ["help"])]

/-- First-match scan over an ordered trigger list, defaulting to
fallback. -/
def firstMatch (lowerMessage : String) : List (Category × List String) → Category
  | [] => .fallback
  | (c, ts) :: rest =>
      if ts.any (fun t => jsIncludes lowerMessage t) then c
      else firstMatch lowerMessage rest

/-- Modelled from the spec (section 4.1): classification as a
first-match scan of the ordered trigger list. -/
def classifySpec (message : String) (hasProfile : Bool) : Category :=
  firstMatch (jsToLower message)
    ((if hasProfile then profileTriggers else []) ++ generalTriggers)

theorem toNat_ofNat_of_valid (n : Nat) (h : n.isValidChar) :
    (Char.ofNat n).toNat = n := by
  simp [Char.ofNat, dif_pos h, Char.ofNatAux, Char.toNat, UInt32.toNat]

theorem toLower_toLower (c : Char) : c.toLower.toLower = c.toLower := by
  unfold Char.toLower
  by_cases h : c.toNat ≥ 65 ∧ c.toNat ≤ 90
  · rw [if_pos h]
    have hv : (Char.ofNat (c.toNat + 32)).toNat = c.toNat + 32 :=
      toNat_ofNat_of_valid _ (Or.inl (by omega))
    rw [if_neg (by omega)]
  · rw [if_neg h, if_neg h]

theorem jsToLower_idem (s : String) : jsToLower (jsToLower s) = jsToLower s := by
  unfold jsToLower
  simp only [List.map_map]
  exact congrArg String.mk (List.map_congr_left fun c _ => toLower_toLower c)

/-- C1: Totality of the orchestrator: for every message string and every
profile (absent, or any parsed trait object), respond returns a
response/context pair; every operation on the path (lower-casing,
substring tests, defaulted lookups, template concatenation) is total, so
the embedding returns a pair by construction and no exception can arise;
the empty message matches no trigger and resolves to the fallback
category, with the fallback variant chosen by profile presence. -/
theorem respond_total :
    ∀ (m : String) (a : Option Assessment),
      (∃ r c : String, respond m a = ⟨r, c⟩) ∧
      classify "" a.isSome = Category.fallback ∧
      respond "" none =
        ⟨"I\x27d love to help you with communication strategies! For personalized advice based on your unique style, please complete the assessment first.",
         "no_assessment"⟩ ∧
      ∀ x : Assessment, respond "" (some x) =
        ⟨"That\x27s a great question about communication! Based on your " ++ x.signature ++
         " profile, I\x27d suggest considering your natural " ++ interp x.traits.drive ++
         " drive and " ++ interp x.traits.expression ++
         " communication style. Could you be more specific about what you\x27d like to know?",
         "assessment_available"⟩ := by
  intro m a
  refine ⟨⟨_, _, rfl⟩, ?_, by decide, fun x => rfl⟩
  cases a with
  | none => decide
  | some x => show classify "" true = Category.fallback; decide

/-- C2: Priority tie-break of the classifier: the source if-chain equals
a first-match scan over the explicit ordered trigger list
(signature-query, strengths-query, improvement-query, team-query,
adaptation-query, then greeting, help, fallback), so the
highest-priority matching category always wins; in particular the given
message classifies as signature-query, and it does so even when the
strengths trigger occurs first positionally. -/
theorem classify_priority_order :
    (∀ (m : String) (b : Bool), classify m b = classifySpec m b) ∧
    classify "I want to know my signature and also my strength" true =
      Category.signatureQuery ∧
    classify "my strength and my signature" true = Category.signatureQuery := by
  refine ⟨fun m b => ?_, by decide, by decide⟩
  cases b <;>
    simp [classify, classifySpec, firstMatch, profileTriggers, generalTriggers,
      classifyGeneral]

/-- C3: No-profile gating: with no profile, classification can only
produce greeting, help or fallback, and a message classified as
fallback yields exactly the fixed no-profile fallback literal, which
interpolates no trait text. -/
theorem classify_noProfile_gating :
    ∀ m : String,
      (classify m false = Category.greeting ∨ classify m false = Category.help ∨
        classify m false = Category.fallback) ∧
      (classify m false = Category.fallback →
        (respond m none).response =
          "I\x27d love to help you with communication strategies! For personalized advice based on your unique style, please complete the assessment first.") := by
  intro m
  by_cases h1 : (jsIncludes (jsToLower m) "hello" || jsIncludes (jsToLower m) "hi") = true
  · constructor
    · left
      simp [classify, classifyGeneral, h1]
    · intro h
      exfalso
      simp [classify, classifyGeneral, h1] at h
  · by_cases h2 : jsIncludes (jsToLower m) "help" = true
    · constructor
      · right; left
        simp [classify, classifyGeneral, h1, h2]
      · intro h
        exfalso
        simp [classify, classifyGeneral, h1, h2] at h
    · constructor
      · right; right
        simp [classify, classifyGeneral, h1, h2]
      · intro _
        show generalTail (jsToLower m) none = _
        unfold generalTail
        rw [if_neg h1, if_neg h2]

/-- C3 witness: a concrete no-profile message matching no trigger. -/
theorem classify_noProfile_gating_witness :
    (respond "random text" none).response =
      "I\x27d love to help you with communication strategies! For personalized advice based on your unique style, please complete the assessment first." :=
  (classify_noProfile_gating "random text").2 (by decide)

/-- C4: Context determinism: the context tag is
"assessment_available" exactly when a profile is present, and
"no_assessment" otherwise, for every message. -/
theorem context_deterministic :
    ∀ (m : String) (a : Option Assessment),
      ((respond m a).context = "assessment_available" ↔ a ≠ none) ∧
      (respond m none).context = "no_assessment" := by
  intro m a
  refine ⟨?_, rfl⟩
  cases a with
  | none =>
    exact ⟨fun h => absurd h (by show ¬"no_assessment" = "assessment_available"; decide),
      fun h => absurd rfl h⟩
  | some x => exact ⟨fun _ => by simp, fun _ => rfl⟩

/-- C4 witness: the two context tags at concrete inputs. -/
theorem context_deterministic_witness :
    (respond "hello"
        (some ⟨"The Pioneer", ⟨some "action", some "expressive", some "flexible", some "intuitive"⟩⟩)).context =
      "assessment_available" ∧
    (respond "hello" none).context = "no_assessment" :=
  ⟨(context_deterministic "hello"
      (some ⟨"The Pioneer", ⟨some "action", some "expressive", some "flexible", some "intuitive"⟩⟩)).1.mpr
      (by simp),
   (context_deterministic "hello" none).2⟩

/-- C5 counterexample: the team-query composition path interpolates the
raw drive value, so a profile whose drive dimension is missing renders
the literal text "undefined" inside the response, refuting the claim
that no composition path emits undefined text for a missing
dimension. -/
theorem teamResponse_missing_drive_undefined :
    jsIncludes
      (respond "team" (some ⟨"The Connector", ⟨none, some "expressive", none, none⟩⟩)).response
      "undefined" = true := by decide

/-- C5 amended: description lookups that miss (unrecognized value, or a
missing dimension, which behaves exactly like an unrecognized value)
return the literal default, and strength/improvement composition at
missed lookups substitutes the dimension-specific default phrases, with
no error; the no-undefined-text guarantee holds for these lookup-based
paths but not for the raw interpolations of team-query and
adaptation-query. -/
theorem fragment_lookup_defaults :
    (∀ t : Option String, jsIndex descriptions t = none →
      getTraitDescription t = "have a unique approach") ∧
    getTraitDescription none = "have a unique approach" ∧
    (∀ s : String, jsIndex descriptions (some s) = none →
      getTraitDescription (some s) = getTraitDescription none) ∧
    (∀ tr : Traits, jsIndex strengths tr.drive = none →
      jsIndex strengths tr.expression = none →
      tr.adaptive ≠ some "flexible" → tr.adaptive ≠ some "steady" →
      getStrengthsResponse tr =
        "Your key strengths include: " ++ "Unique problem-solving approaches" ++ ", " ++
        "distinctive communication style" ++ ", and your ability to " ++
        "navigate change thoughtfully" ++ ".") ∧
    (∀ tr : Traits, jsIndex improvements tr.drive = none →
      jsIndex improvements tr.expression = none →
      getImprovementResponse tr =
        "To grow your communication effectiveness: " ++
        "Continue developing your unique approach" ++ " and " ++
        "keep refining your communication style" ++
        ". Remember, these are suggestions to add to your strengths, not replace them.") := by
  refine ⟨fun t h => ?_, by decide, fun s h => ?_, fun tr h1 h2 ha1 ha2 => ?_, fun tr h1 h2 => ?_⟩
  · unfold getTraitDescription
    rw [h]
    rfl
  · unfold getTraitDescription
    rw [h]
    decide
  · unfold getStrengthsResponse
    rw [h1, h2, if_neg ha1, if_neg ha2]
    rfl
  · unfold getImprovementResponse
    rw [h1, h2]
    rfl

/-- C5 witness: a concrete unrecognized drive value and a traits record
missing the expression dimension hit every default. -/
theorem fragment_lookup_defaults_witness :
    getTraitDescription (some "visionary") = "have a unique approach" ∧
    getStrengthsResponse ⟨some "visionary", none, some "collaborative", none⟩ =
      "Your key strengths include: " ++ "Unique problem-solving approaches" ++ ", " ++
      "distinctive communication style" ++ ", and your ability to " ++
      "navigate change thoughtfully" ++ "." ∧
    getImprovementResponse ⟨some "visionary", none, some "collaborative", none⟩ =
      "To grow your communication effectiveness: " ++
      "Continue developing your unique approach" ++ " and " ++
      "keep refining your communication style" ++
      ". Remember, these are suggestions to add to your strengths, not replace them." :=
  ⟨fragment_lookup_defaults.1 (some "visionary") (by decide),
   fragment_lookup_defaults.2.2.2.1 ⟨some "visionary", none, some "collaborative", none⟩
     (by decide) (by decide) (by decide) (by decide),
   fragment_lookup_defaults.2.2.2.2 ⟨some "visionary", none, some "collaborative", none⟩
     (by decide) (by decide)⟩

/-- C6: Duplicate-key shadowing: the descriptions object literal
declares the key "analytical" twice, and the later declaration wins, so
the lookup for "analytical" returns "rely on data and systematic
reasoning" and the earlier fragment is unreachable for every possible
trait value. -/
theorem analytical_shadowed :
    getTraitDescription (some "analytical") = "rely on data and systematic reasoning" ∧
    ∀ t : Option String,
      getTraitDescription t ≠ "analyze implications before adapting" := by
  have key : ∀ k : String,
      descriptions.reverse.lookup k ≠ some "analyze implications before adapting" := by
    intro k
    simp only [descriptions, List.reverse, List.reverseAux, List.lookup]
    repeat' split
    all_goals simp_all
  refine ⟨by decide, fun t => ?_⟩
  show jsOr (jsIndex descriptions t) "have a unique approach" ≠ _
  cases h : jsIndex descriptions t with
  | none => decide
  | some s =>
    have hk : s ≠ "analyze implications before adapting" := by
      have hb := key (t.getD "undefined")
      rw [show descriptions.reverse.lookup (t.getD "undefined") = jsIndex descriptions t
        from rfl, h] at hb
      simpa using hb
    show (if s = "" then "have a unique approach" else s) ≠ _
    split_ifs with hs
    · decide
    · exact hk

/-- C7: Team and adaptation composition: when the drive, expression and
adaptive values match none of their explicit branches, the team-query
and adaptation-query templates fall through to the generic clauses
("keeping the team organized and efficient", "keeping communications
clear and focused", "make thoughtful adjustments") instead of
erroring. -/
theorem team_adaptation_fallthrough :
    ∀ tr : Traits,
      tr.drive ≠ some "action" → tr.drive ≠ some "research" →
      tr.drive ≠ some "collaborate" →
      tr.expression ≠ some "expressive" → tr.expression ≠ some "reflective" →
      tr.expression ≠ some "interactive" →
      tr.adaptive ≠ some "flexible" → tr.adaptive ≠ some "steady" →
      getTeamResponse tr =
        "When working with teams, leverage your " ++ interp tr.drive ++ " approach by " ++
          "keeping the team organized and efficient" ++
        ". Your " ++ interp tr.expression ++ " communication style helps by " ++
          "keeping communications clear and focused" ++ "." ∧
      getAdaptationResponse tr =
        "To adapt your style with different people: With action-oriented colleagues, be direct and focus on results. With research-oriented people, provide data and allow time for analysis. With collaborative types, involve them in decisions. With process-oriented individuals, follow structure and be systematic. Your natural " ++
          interp tr.adaptive ++ " approach to change will help you " ++
          "make thoughtful adjustments" ++ "." := by
  intro tr hd1 hd2 hd3 he1 he2 he3 ha1 ha2
  constructor
  · unfold getTeamResponse
    rw [if_neg hd1, if_neg hd2, if_neg hd3, if_neg he1, if_neg he2, if_neg he3]
  · unfold getAdaptationResponse
    rw [if_neg ha1, if_neg ha2]

/-- C7 witness: concrete unmatched values (the fourth legal drive value
"optimize", the fourth legal expression value "purposeful", and the
adaptive value "collaborative") hit all three generic clauses. -/
theorem team_adaptation_fallthrough_witness :
    getTeamResponse ⟨some "optimize", some "purposeful", some "collaborative", none⟩ =
      "When working with teams, leverage your " ++ interp (some "optimize") ++
        " approach by " ++ "keeping the team organized and efficient" ++
      ". Your " ++ interp (some "purposeful") ++ " communication style helps by " ++
        "keeping communications clear and focused" ++ "." ∧
    getAdaptationResponse ⟨some "optimize", some "purposeful", some "collaborative", none⟩ =
      "To adapt your style with different people: With action-oriented colleagues, be direct and focus on results. With research-oriented people, provide data and allow time for analysis. With collaborative types, involve them in decisions. With process-oriented individuals, follow structure and be systematic. Your natural " ++
        interp (some "collaborative") ++ " approach to change will help you " ++
        "make thoughtful adjustments" ++ "." :=
  team_adaptation_fallthrough ⟨some "optimize", some "purposeful", some "collaborative", none⟩
    (by decide) (by decide) (by decide) (by decide) (by decide) (by decide)
    (by decide) (by decide)

/-- C8: Case insensitivity of classification: classifying a message and
classifying its lower-cased form agree for every profile state, and the
three casings of "strength" all classify as strengths-query with a
profile present. -/
theorem classify_case_insensitive :
    (∀ (m : String) (b : Bool), classify m b = classify (jsToLower m) b) ∧
    classify "STRENGTH" true = Category.strengthsQuery ∧
    classify "Strength" true = Category.strengthsQuery ∧
    classify "strength" true = Category.strengthsQuery := by
  refine ⟨fun m b => ?_, by decide, by decide, by decide⟩
  simp only [classify]
  rw [jsToLower_idem]

/-- C9: Determinism across calls: the engine is a pure function of its
two inputs (the source reads no clock and draws no randomness), so two
results of identical calls are equal. -/
theorem respond_deterministic :
    ∀ (m : String) (a : Option Assessment) (r1 r2 : ChatResult),
      respond m a = r1 → respond m a = r2 → r1 = r2 := by
  intro m a r1 r2 h1 h2
  rw [← h1, ← h2]

/-- C9 witness: two identical concrete calls agree. -/
theorem respond_deterministic_witness :
    respond "hello" none = respond "hello" none :=
  respond_deterministic "hello" none (respond "hello" none) (respond "hello" none) rfl rfl

/-- C10: Trigger matching has no word boundaries: a message whose
lower-cased form contains "hi" anywhere (also inside an ordinary word)
and matches no earlier trigger classifies as greeting for either
profile state, and concretely respond("this is it", null) returns the
no-profile greeting variant, not the fallback variant. -/
theorem substring_greeting :
    ∀ m : String,
      jsIncludes (jsToLower m) "hi" = true →
      jsIncludes (jsToLower m) "signature" = false →
      jsIncludes (jsToLower m) "what am i" = false →
      jsIncludes (jsToLower m) "strength" = false →
      jsIncludes (jsToLower m) "good at" = false →
      jsIncludes (jsToLower m) "improve" = false →
      jsIncludes (jsToLower m) "better" = false →
      jsIncludes (jsToLower m) "team" = false →
      jsIncludes (jsToLower m) "colleague" = false →
      jsIncludes (jsToLower m) "adapt" = false →
      jsIncludes (jsToLower m) "different" = false →
      (∀ b : Bool, classify m b = Category.greeting) ∧
      respond "this is it" none =
        ⟨"Hello! I can help you understand communication styles and frameworks. To give you personalized advice, you\x27ll need to complete the assessment first.",
         "no_assessment"⟩ := by
  intro m hhi h1 h2 h3 h4 h5 h6 h7 h8 h9 h10
  refine ⟨fun b => ?_, by decide⟩
  cases b <;>
    simp [classify, classifyGeneral, hhi, h1, h2, h3, h4, h5, h6, h7, h8, h9, h10]

/-- C10 witness: "this is it" contains "hi" inside "this" and no other
trigger, so it greets even without a profile. -/
theorem substring_greeting_witness :
    classify "this is it" false = Category.greeting :=
  (substring_greeting "this is it" (by decide) (by decide) (by decide) (by decide)
    (by decide) (by decide) (by decide) (by decide) (by decide) (by decide)
    (by decide)).1 false

end Amplarii
